import Mathlib

/-!
# Verification of the monitors price-analysis pipeline

Shallow embedding of `notebooks/analysis/price_analysis_monitors.ipynb`:
a batch pipeline that loads cleaned per-platform CSV data for the
"monitors" category, keeps the listings whose derived product-identity
key occurs on both platforms, aggregates mean price per
(key, platform, collection date) triple and renders one chart per key.

Modelling conventions:
* A pandas cell value is a `PyVal`; the null markers `None` and `NaN`
  are distinguished because `astype(str)` renders them differently
  ("None" vs "nan") while both count as null for `pd.isnull`.
* A DataFrame row is an association list from column names to values;
  a DataFrame is a list of rows.  Numeric cells hold exact rationals
  (an integer-valued cell prints without a decimal point, matching an
  integer-typed pandas column).
* Fallible Python evaluation is `Except String`, the string being the
  exception rendered as text.  `exit(1)` raises `SystemExit`, which is
  *not* an `Exception` and therefore escapes `except Exception` blocks.
-/

namespace PriceMonitors

/-- A scalar cell value as pandas sees it. -/
inductive PyVal where
  | vNone
  | vNaN
  | vStr (s : String)
  | vNum (q : ℚ)
  | vDate (d : Nat)
deriving DecidableEq, Repr

/-- `pd.isnull`: both `None` and `NaN` are null markers. -/
def isNull : PyVal → Bool
  | .vNone => true
  | .vNaN => true
  | _ => false

/-- `pd.notnull`. -/
def pdNotNull (v : PyVal) : Bool := !(isNull v)

/-- Fractional decimal digits of `r / d`, with fuel (CSV decimals terminate). -/
def fracDigits : Nat → Nat → Nat → String
  | 0, _, _ => ""
  | _, 0, _ => ""
  | fuel + 1, r, d =>
      let r10 := r * 10
      toString (r10 / d) ++ fracDigits fuel (r10 % d) d

/-- `str` of a number: integer-valued cells print as integers (the columns
used in the identity key are integer-typed in the data), other rationals
print with their decimal expansion. -/
def numToStr (q : ℚ) : String :=
  if q.den = 1 then toString q.num
  else
    (if q < 0 then "-" else "") ++ toString (q.num.natAbs / q.den) ++ "." ++
      fracDigits 30 (q.num.natAbs % q.den) q.den

/-- ISO rendering of a date stored as `y*10000 + m*100 + d`. -/
def dateToStr (d : Nat) : String :=
  let pad2 := fun (n : Nat) => if n < 10 then "0" ++ toString n else toString n
  toString (d / 10000) ++ "-" ++ pad2 (d % 10000 / 100) ++ "-" ++ pad2 (d % 100)

/-- `str(value)` as applied by `Series.astype(str)`:
`None` renders as "None", `NaN` as "nan". -/
def pyToStr : PyVal → String
  | .vNone => "None"
  | .vNaN => "nan"
  | .vStr s => s
  | .vNum q => numToStr q
  | .vDate d => dateToStr d

/-- `Series.astype(str)` is total: every cell becomes a (non-null) string. -/
def astypeStr (v : PyVal) : PyVal := .vStr (pyToStr v)

/-- `+` on object-dtype pandas cells in a string context: pandas masks null
operands first (either operand null gives `NaN`), then concatenates strings;
a non-null non-string operand raises `TypeError`. -/
def pyAdd (v w : PyVal) : Except String PyVal :=
  if isNull v || isNull w then .ok .vNaN
  else
    match v, w with
    | .vStr a, .vStr b => .ok (.vStr (a ++ b))
    | _, _ => .error "TypeError: unsupported operand types for +"

/-- One DataFrame row: column name to cell value, in column order. -/
abbrev Row := List (String × PyVal)

/-- `row[c]`: the first cell under column `c`, if the column exists. -/
def colVal (r : Row) (c : String) : Option PyVal :=
  (r.find? (fun p => p.1 == c)).map (·.2)

/-- `df[c]` where a missing column is a `KeyError`. -/
def getColE (r : Row) (c : String) : Except String PyVal :=
  match colVal r c with
  | some v => .ok v
  | none => .error ("KeyError: " ++ c)

/-- `df[c] = v`: overwrite the column if present, else append it. -/
def setCol (r : Row) (c : String) (v : PyVal) : Row :=
  match r with
  | [] => [(c, v)]
  | (c', v') :: rest => if c' = c then (c, v) :: rest else (c', v') :: setCol rest c v

/-! ## Loader field conversions (`load_cleaned_data`, cells 6) -/

/-- Whitespace-trimming on both ends of a character list (`str.strip`). -/
def trimChars (cs : List Char) : List Char :=
  ((cs.dropWhile Char.isWhitespace).reverse.dropWhile Char.isWhitespace).reverse

/-- Split a character list on a single-character separator, matching
`str.split` / `String.splitOn` for one-character patterns. -/
def splitOnChar (sep : Char) : List Char → List (List Char)
  | [] => [[]]
  | c :: rest =>
      match splitOnChar sep rest with
      | [] => [[c]]
      | hd :: tl => if c = sep then [] :: hd :: tl else (c :: hd) :: tl

/-- Digits of a non-empty all-digit character list, else `none`. -/
def parseDigits? (cs : List Char) : Option Nat :=
  if cs.isEmpty then none
  else if cs.all Char.isDigit then
    some (cs.foldl (fun n c => n * 10 + (c.toNat - 48)) 0)
  else none

/-- Python `float(s)` on a plain decimal literal (optional sign, optional
fractional part).  Strings `float` would reject give `none`; exotic accepted
forms (exponents, `inf`, `nan`) do not occur in this data and also give
`none`, which the caller turns into the raising case. -/
def parseFloat? (s : String) : Option ℚ :=
  let t := trimChars s.toList
  let sb : ℤ × List Char :=
    match t with
    | '-' :: rest => (-1, rest)
    | '+' :: rest => (1, rest)
    | _ => (1, t)
  match splitOnChar '.' sb.2 with
  | [ip] => (parseDigits? ip).map (fun n => mkRat (sb.1 * n) 1)
  | [ip, fp] =>
      if ip.isEmpty && fp.isEmpty then none
      else
        match (if ip.isEmpty then some 0 else parseDigits? ip),
              (if fp.isEmpty then some 0 else parseDigits? fp) with
        | some a, some b =>
            some (mkRat (sb.1 * ((a : ℤ) * 10 ^ fp.length + (b : ℤ))) (10 ^ fp.length))
        | _, _ => none
  | _ => none

/-- Python `float(x)`: numbers pass through, numeric text is parsed,
non-numeric text raises `ValueError`, other objects raise `TypeError`. -/
def pyFloat : PyVal → Except String ℚ
  | .vNum q => .ok q
  | .vStr s =>
      match parseFloat? s with
      | some q => .ok q
      | none => .error ("ValueError: could not convert string to float: " ++ s)
  | _ => .error "TypeError: float() argument must be a string or a number"

/-- Python `round` on a float: nearest integer, ties to even.  The
fractional part `q - floor q = r / den` is compared with one half through
the exact integer comparison of `2 * r` against `den`. -/
def pythonRound (q : ℚ) : ℤ :=
  let f := q.floor
  let r := q.num - f * (q.den : ℤ)
  if 2 * r < (q.den : ℤ) then f
  else if (q.den : ℤ) < 2 * r then f + 1
  else if f % 2 = 0 then f else f + 1

/-- The loader's screen-size conversion
`lambda x: round(float(x)) if pd.notnull(x) else None`:
null cells become `None` without raising; any other cell goes through
`float`, which raises on non-numeric content. -/
def convertScreenSize (x : PyVal) : Except String PyVal :=
  if pdNotNull x then
    match pyFloat x with
    | .ok q => .ok (.vNum (pythonRound q))
    | .error e => .error e
  else .ok .vNone

/-- `pd.to_datetime(v, errors='coerce').dt.date` on one cell: an ISO
`YYYY-MM-DD` string (or an existing date) parses, anything else coerces to
the null marker `NaT` — never raising. -/
def parseDate? (v : PyVal) : Option Nat :=
  match v with
  | .vDate d => some d
  | .vStr s =>
      match splitOnChar '-' s.toList with
      | [y, m, d] =>
          match parseDigits? y, parseDigits? m, parseDigits? d with
          | some yn, some mn, some dn =>
              if 1 ≤ mn && mn ≤ 12 && 1 ≤ dn && dn ≤ 31 then
                some (yn * 10000 + mn * 100 + dn)
              else none
          | _, _, _ => none
      | _ => none
  | _ => none

/-! ## Chart filename sanitization (`analyze_price_differences`, cell 10) -/

/-- Python `\w` restricted to the ASCII data at hand. -/
def isWordChar (c : Char) : Bool := c.isAlphanum || c == '_'

/-- Python `\s` (whitespace). -/
def isSpaceChar (c : Char) : Bool := c.isWhitespace

/-- `re.sub(r"[^\w\s]", "_", product_id.replace("|", "_"))`: first the
separator is replaced by underscores, then every character that is neither
a word character nor whitespace is *replaced by* an underscore. -/
def sanitizeTitle (pid : String) : String :=
  ((pid.toList.map (fun c => if c = '|' then '_' else c)).map
      (fun c => if isWordChar c || isSpaceChar c then c else '_')).asString

/-- `f"Monitor_{sanitized_title}.png"`. -/
def chartFileName (pid : String) : String := "Monitor_" ++ sanitizeTitle pid ++ ".png"

/-- Modelled from the spec's words for claim C3 only (the claim's stated
rule): replace the separator with underscores, then *remove* (strip) every
character that is neither a word character nor whitespace.  Kept separate
from `chartFileName`, which follows the source. -/
def chartFileNameStripRule (pid : String) : String :=
  "Monitor_" ++
    ((pid.toList.map (fun c => if c = '|' then '_' else c)).filter
      (fun c => isWordChar c || isSpaceChar c)).asString ++ ".png"

/-! ## Matcher (`filter_products_by_platforms`, cell 8)

```python
df['product_id'] = (df['brand'] + "|" + df['screen_size_in'].astype(str) + "|"
    + df['aspect_ratio'].astype(str) + "|" + df['refresh_rate_hz'].astype(str)
    + "|" + df['response_time_ms'].astype(str))
platform_groups = df.groupby('product_id')['platform'].unique()
cross_platform = platform_groups[platform_groups.apply(
    lambda x: len(set(x) & \x7b'ebay', 'flipkart'\x7d) >= 2)].index.tolist()
return df[df['product_id'].isin(cross_platform)]
```
Only `brand` is used without `astype(str)`, so a null brand propagates to a
null (`NaN`) product id, while nulls in the other four fields turn into the
text "nan"/"None" inside a perfectly good string key. -/

/-- The row's product id, exactly as the columnwise expression computes it:
left-associated `+` starting from the raw `brand` cell. -/
def makeProductId (r : Row) : Except String PyVal := do
  let b ← getColE r "brand"
  let sz ← getColE r "screen_size_in"
  let ar ← getColE r "aspect_ratio"
  let rr ← getColE r "refresh_rate_hz"
  let rt ← getColE r "response_time_ms"
  let s1 ← pyAdd b (.vStr "|")
  let s2 ← pyAdd s1 (astypeStr sz)
  let s3 ← pyAdd s2 (.vStr "|")
  let s4 ← pyAdd s3 (astypeStr ar)
  let s5 ← pyAdd s4 (.vStr "|")
  let s6 ← pyAdd s5 (astypeStr rr)
  let s7 ← pyAdd s6 (.vStr "|")
  pyAdd s7 (astypeStr rt)

/-- `df['product_id'] = ...` applied to one row (the column assignment). -/
def tagRowOf (r : Row) : Row :=
  match makeProductId r with
  | .ok v => setCol r "product_id" v
  | .error _ => r

/-- First exception raised while computing the product-id column, if any
(in pandas the columnwise expression raises once; row order stands in for
column order in this row-wise model). -/
def firstKeyError (df : List Row) : Option String :=
  df.findSome? (fun r => match makeProductId r with | .error e => some e | .ok _ => none)

/-- The distinct non-null product ids, i.e. the group keys of
`df.groupby('product_id')`: groupby drops null keys, and every non-error
product id is either a string or `NaN`. -/
def strKeysOf (df : List Row) : List String :=
  (df.filterMap (fun r =>
    match makeProductId r with
    | .ok (.vStr s) => some s
    | _ => none)).dedup

/-- `groupby('product_id')['platform'].unique()` for one group of the
tagged frame: the distinct platform values of the rows carrying key `k`. -/
def platformVals (tagged : List Row) (k : String) : List PyVal :=
  ((tagged.filter (fun t => decide (colVal t "product_id" = some (.vStr k)))).filterMap
      (fun t => colVal t "platform")).dedup

/-- Membership in the literal set `\x7b'ebay', 'flipkart'\x7d`. -/
def isKnownPlatform (v : PyVal) : Bool :=
  decide (v = .vStr "ebay") || decide (v = .vStr "flipkart")

/-- `cross_platform`: the keys whose distinct-platform set meets
`\x7b'ebay', 'flipkart'\x7d` in at least two values. -/
def crossKeys (df : List Row) : List String :=
  (strKeysOf df).filter
    (fun k => 2 ≤ ((platformVals (df.map tagRowOf) k).filter isKnownPlatform).length)

/-- `df['product_id'].isin(cross_platform)` for one row: a null (or absent)
key is never in the kept list. -/
def keptPred (cross : List String) (t : Row) : Bool :=
  match colVal t "product_id" with
  | some (.vStr s) => cross.contains s
  | _ => false

/-- `filter_products_by_platforms`: raise any `KeyError`/`TypeError` from the
key construction or the missing `platform` column, else return the tagged
rows whose product id is in the kept set. -/
def filterProducts (df : List Row) : Except String (List Row) :=
  match firstKeyError df with
  | some e => .error e
  | none =>
      if df.all (fun r => (colVal r "platform").isSome) then
        .ok ((df.map tagRowOf).filter (keptPred (crossKeys df)))
      else .error "KeyError: platform"

instance : DecidableEq (Except String PyVal) := fun a b =>
  match a, b with
  | .ok x, .ok y =>
      if h : x = y then .isTrue (by rw [h]) else .isFalse (by simp [h])
  | .error x, .error y =>
      if h : x = y then .isTrue (by rw [h]) else .isFalse (by simp [h])
  | .ok _, .error _ => .isFalse (by simp)
  | .error _, .ok _ => .isFalse (by simp)

/-- The claim-side reading of "the set of distinct platforms observed for
that row's identity key", computed over the input frame. -/
def platformsOfKey (df : List Row) (k : PyVal) : List PyVal :=
  ((df.filter (fun r => decide (makeProductId r = .ok k))).filterMap
      (fun r => colVal r "platform")).dedup

/-! ## Loader (`load_cleaned_data`, cell 6) -/

/-- A parsed CSV file as `pd.read_csv` delivers it: a path, a header and
the cell rows (read errors are out of scope; files stand for their parsed
content). -/
structure CsvFile where
  name : String
  header : List String
  cells : List (List PyVal)
deriving DecidableEq, Repr

/-- The validated column set. -/
def requiredColumns : List String :=
  ["title", "price", "screen_size_in", "aspect_ratio",
   "refresh_rate_hz", "response_time_ms", "brand", "collection_date"]

/-- `col.strip().lower().replace(" ", "_")`, character by character. -/
def normalizeColName (c : String) : String :=
  (((trimChars c.toList).map Char.toLower).map
      (fun ch => if ch = ' ' then '_' else ch)).asString

/-- `required_columns - set(df.columns)` after header normalization. -/
def missingCols (f : CsvFile) : List String :=
  requiredColumns.filter (fun c => !((f.header.map normalizeColName).contains c))

/-- A log line sent to the module logger. -/
inductive LogEntry where
  | info (msg : String)
  | warning (msg : String)
  | error (msg : String)
deriving DecidableEq, Repr

/-- The module-level global functions the notebook binds that a column
`.apply` could name.  The notebook defines `load_cleaned_data`,
`filter_products_by_platforms` and `analyze_price_differences` and imports
`pd`, `plt`, `sns`, `Path`, `re`, `logging`; it binds **no** function named
`normalize_brand` or `normalize_aspect_ratio`, so this table is empty and
evaluating either name raises `NameError` at call time. -/
def globalFns : List (String × (PyVal → PyVal)) := []

/-- Python global-name resolution for an `.apply` argument. -/
def lookupFn (n : String) : Option (PyVal → PyVal) :=
  (globalFns.find? (fun p => p.1 == n)).map (·.2)

/-- The per-row effect of the loader's normalization block, given resolved
`normalize_brand` and `normalize_aspect_ratio` functions: tag the platform,
apply both normalizers, convert the screen size (which may raise) and
coerce the collection date.  (Pandas applies each step columnwise; running
the same steps row by row builds the same rows, and an exception in any
step likewise aborts the whole file.) -/
def processRow (nb na : PyVal → PyVal) (platform : String) (cols : List String)
    (vals : List PyVal) : Except String Row := do
  let r0 : Row := cols.zip vals
  let r1 := setCol r0 "platform" (.vStr platform)
  let b ← getColE r1 "brand"
  let r2 := setCol r1 "brand" (nb b)
  let a ← getColE r2 "aspect_ratio"
  let r3 := setCol r2 "aspect_ratio" (na a)
  let sz ← getColE r3 "screen_size_in"
  let szv ← convertScreenSize sz
  let r4 := setCol r3 "screen_size_in" szv
  let cd ← getColE r4 "collection_date"
  let r5 := setCol r4 "collection_date"
      (match parseDate? cd with | some d => .vDate d | none => .vNaN)
  pure r5

/-- One iteration of the file loop: normalize the header, validate the
required columns (warn and skip when some are missing), then resolve the
two normalizer names — which fails with `NameError` — so the
`except Exception` arm logs an error and skips the file.  Returns the log
lines and the rows contributed to `dfs`. -/
def processFile (platform : String) (f : CsvFile) : List LogEntry × List Row :=
  if (missingCols f).isEmpty then
    match lookupFn "normalize_brand", lookupFn "normalize_aspect_ratio" with
    | some nb, some na =>
        match f.cells.mapM (processRow nb na platform (f.header.map normalizeColName)) with
        | .ok rs => ([], rs)
        | .error e => ([.error ("Error loading " ++ f.name ++ ": " ++ e)], [])
    | _, _ =>
        ([.error ("Error loading " ++ f.name ++
            ": NameError: name normalize_brand is not defined")], [])
  else
    ([.warning ("Missing columns in " ++ f.name ++ ": " ++
        String.intercalate ", " (missingCols f))], [])

/-- The file loop over one platform directory, accumulating logs and rows
in file order (matching `dfs.append` plus the final `pd.concat`). -/
def processFiles (platform : String) : List CsvFile → List LogEntry × List Row
  | [] => ([], [])
  | f :: fs =>
      let hd := processFile platform f
      let tl := processFiles platform fs
      (hd.1 ++ tl.1, hd.2 ++ tl.2)

/-- The `<cleaned-data-root>` tree: the platform subdirectories that exist,
each with the CSV files of its `monitors` folder. -/
structure DataRoot where
  dirs : List (String × List CsvFile)
deriving Repr

/-- Directory lookup under the cleaned-data root. -/
def lookupDir (root : DataRoot) (p : String) : Option (List CsvFile) :=
  (root.dirs.find? (fun q => q.1 == p)).map (·.2)

/-- The two known platforms, in iteration order. -/
def platformList : List String := ["ebay", "flipkart"]

/-- One iteration of the platform loop: a missing directory warns and
contributes nothing; an existing one runs the file loop. -/
def processPlatform (root : DataRoot) (p : String) : List LogEntry × List Row :=
  match lookupDir root p with
  | none => ([.warning ("Missing data directory: " ++ p ++ "/monitors")], [])
  | some files => processFiles p files

/-- `load_cleaned_data()`: concatenate both platforms' contributions; with
no usable file the result is the empty frame, not an error. -/
def loadCleanedData (root : DataRoot) : List LogEntry × List Row :=
  platformList.foldl
    (fun acc p =>
      (acc.1 ++ (processPlatform root p).1, acc.2 ++ (processPlatform root p).2))
    ([], [])

/-! ## Analyzer (`analyze_price_differences`, cell 10) -/

/-- The `(product_id, platform, collection_date)` group key of a row, when
all three components exist and none is null; `groupby` drops the row from
the aggregation otherwise (a null date has no bucket). -/
def tripleKey (r : Row) : Option (PyVal × PyVal × PyVal) :=
  match colVal r "product_id", colVal r "platform", colVal r "collection_date" with
  | some kp, some pl, some cd =>
      if isNull kp || isNull pl || isNull cd then none else some (kp, pl, cd)
  | _, _, _ => none

/-- The rows of one aggregation group. -/
def groupRows (df : List Row) (k : PyVal × PyVal × PyVal) : List Row :=
  df.filter (fun r => decide (tripleKey r = some k))

/-- The numeric `price` of a row, if any; `Series.mean` skips null cells. -/
def priceVal (r : Row) : Option ℚ :=
  match colVal r "price" with
  | some (.vNum q) => some q
  | _ => none

/-- The raw `price` of a row under the all-numeric reading of the claim. -/
def priceOf (r : Row) : ℚ :=
  match colVal r "price" with
  | some (.vNum q) => q
  | _ => 0

/-- `groupby(['product_id', 'platform', 'collection_date'])['price'].mean()`
looked up at one triple: the mean of the group's (non-null) prices, absent
when the triple labels no row. -/
def dailyMean (df : List Row) (k : PyVal × PyVal × PyVal) : Option ℚ :=
  let ps := (groupRows df k).filterMap priceVal
  if ps.isEmpty then none else some (ps.sum / (ps.length : ℚ))

/-- The product ids the per-product chart loop iterates over: the distinct
string keys still present after the aggregation dropped null-keyed rows. -/
def chartPids (filtered : List Row) : List String :=
  (filtered.filterMap (fun r =>
    match tripleKey r, colVal r "product_id" with
    | some _, some (.vStr s) => some s
    | _, _ => none)).dedup

/-- `analyze_price_differences`: an empty matched subset logs an
informational line and produces nothing; otherwise one chart file per
product id surviving aggregation (the grouping raises `KeyError` if a
grouping or price column is absent). -/
def analyze (filtered : List Row) : Except String (List LogEntry × List String) :=
  if filtered.isEmpty then
    .ok ([.info "No cross-platform monitors found for analysis"], [])
  else if filtered.all (fun r =>
      (colVal r "product_id").isSome && (colVal r "platform").isSome &&
      (colVal r "collection_date").isSome && (colVal r "price").isSome) then
    .ok ([], (chartPids filtered).map chartFileName)
  else .error "KeyError"

/-! ## Orchestrator (`__main__`, cell 12) -/

/-- How the `try` body ends: normally, via `exit(1)` (`SystemExit`, which
`except Exception` does not catch), or with a raised `Exception`. -/
inductive BodyOutcome where
  | completed
  | sysExit (code : Nat)
  | raised (msg : String)
deriving DecidableEq, Repr

/-- One finished run: everything logged, the chart files written, and the
process exit status. -/
structure RunResult where
  logs : List LogEntry
  charts : List String
  exitStatus : Nat
deriving DecidableEq, Repr

/-- The `try` body: load; on an empty frame log the error and `exit(1)`;
otherwise filter and analyze, where any raised exception carries outward. -/
def bodyRun (root : DataRoot) : BodyOutcome × List LogEntry × List String :=
  let lls := (loadCleanedData root).1
  let rows := (loadCleanedData root).2
  let logs0 := LogEntry.info "Loading and processing monitor data..." :: lls
  if rows.isEmpty then
    (.sysExit 1,
     logs0 ++ [.error "No cleaned data found. Check data/cleaned directories."], [])
  else
    let logs1 := logs0 ++
      [.info ("Loaded " ++ toString rows.length ++ " records from cleaned data")]
    match filterProducts rows with
    | .error e => (.raised e, logs1, [])
    | .ok filtered =>
        let logs2 := logs1 ++
          [.info ("Found " ++ toString filtered.length ++ " cross-platform monitor entries")]
        match analyze filtered with
        | .error e => (.raised e, logs2, [])
        | .ok (als, charts) => (.completed, logs2 ++ als, charts)

/-- The top-level `try/except Exception` with what follows it: a normal end
of script exits 0; `SystemExit` passes through and sets its code; a caught
`Exception` is logged (`exc_info=True` attaches the full traceback) and the
script then falls off the end — exiting 0. -/
def mainHandler : BodyOutcome × List LogEntry × List String → RunResult
  | (.completed, ls, cs) => ⟨ls, cs, 0⟩
  | (.sysExit c, ls, cs) => ⟨ls, cs, c⟩
  | (.raised m, ls, cs) => ⟨ls ++ [.error ("Critical error: " ++ m)], cs, 0⟩

/-- The whole `__main__` block. -/
def mainRun (root : DataRoot) : RunResult := mainHandler (bodyRun root)

/-! ## Concrete data used by witnesses and counterexamples -/

/-- An eBay listing of the spec's running example. -/
def dellEbay : Row :=
  [("title", .vStr "Dell 24in"), ("price", .vNum 200),
   ("screen_size_in", .vNum 24), ("aspect_ratio", .vStr "16:9"),
   ("refresh_rate_hz", .vNum 144), ("response_time_ms", .vNum 1),
   ("brand", .vStr "Dell"), ("collection_date", .vDate 20240101),
   ("platform", .vStr "ebay")]

/-- The matching Flipkart listing. -/
def dellFlipkart : Row :=
  [("title", .vStr "Dell monitor 24"), ("price", .vNum 19000),
   ("screen_size_in", .vNum 24), ("aspect_ratio", .vStr "16:9"),
   ("refresh_rate_hz", .vNum 144), ("response_time_ms", .vNum 1),
   ("brand", .vStr "Dell"), ("collection_date", .vDate 20240101),
   ("platform", .vStr "flipkart")]

/-- A 27-inch eBay listing with no Flipkart counterpart. -/
def dellBig : Row :=
  [("title", .vStr "Dell 27in"), ("price", .vNum 250),
   ("screen_size_in", .vNum 27), ("aspect_ratio", .vStr "16:9"),
   ("refresh_rate_hz", .vNum 144), ("response_time_ms", .vNum 1),
   ("brand", .vStr "Dell"), ("collection_date", .vDate 20240101),
   ("platform", .vStr "ebay")]

/-- A small unified table with one cross-platform product and one
single-platform product. -/
def dfDell : List Row := [dellEbay, dellFlipkart, dellBig]

/-- An eBay row whose `brand` cell is null. -/
def nullBrandEbay : Row :=
  [("title", .vStr "mystery"), ("price", .vNum 200),
   ("screen_size_in", .vNum 24), ("aspect_ratio", .vStr "16:9"),
   ("refresh_rate_hz", .vNum 144), ("response_time_ms", .vNum 1),
   ("brand", .vNaN), ("collection_date", .vDate 20240101),
   ("platform", .vStr "ebay")]

/-- The same null-brand specification listed on Flipkart. -/
def nullBrandFlipkart : Row := setCol nullBrandEbay "platform" (.vStr "flipkart")

/-- A table whose two rows share a null-brand specification across both
platforms. -/
def dfNullBrand : List Row := [nullBrandEbay, nullBrandFlipkart]

/-- A Dell eBay row whose response-time cell is null. -/
def nullRespEbay : Row := setCol dellEbay "response_time_ms" .vNaN

/-- A matched-subset table for the aggregation example: two eBay rows with
prices 200 and 220 on the same key and date, one Flipkart row. -/
def dfAgg : List Row :=
  [tagRowOf dellEbay,
   tagRowOf (setCol dellEbay "price" (.vNum 220)),
   tagRowOf dellFlipkart]

/-- The `(key, ebay, date)` triple of the aggregation example. -/
def aggTriple : PyVal × PyVal × PyVal :=
  (.vStr "Dell|24|16:9|144|1", .vStr "ebay", .vDate 20240101)

/-- A cleaned-data root with no platform directories at all. -/
def rootEmpty : DataRoot := ⟨[]⟩

/-- A CSV file whose header is exactly the required column set. -/
def fileOK : CsvFile :=
  ⟨"ebay/monitors/a.csv", requiredColumns,
   [[.vStr "Dell 24in", .vNum 200, .vNum 24, .vStr "16:9", .vNum 144,
     .vNum 1, .vStr "Dell", .vStr "2024-01-01"]]⟩

/-- A CSV file lacking the `price` and `brand` columns. -/
def fileMissing : CsvFile :=
  ⟨"ebay/monitors/b.csv",
   ["title", "screen_size_in", "aspect_ratio", "refresh_rate_hz",
    "response_time_ms", "collection_date"],
   [[.vStr "Dell 24in", .vNum 24, .vStr "16:9", .vNum 144, .vNum 1,
     .vStr "2024-01-01"]]⟩

/-- A root holding both files under the eBay platform. -/
def rootBoth : DataRoot := ⟨[("ebay", [fileOK, fileMissing])]⟩

/-! ## Helper lemmas -/

theorem colVal_nil (c : String) : colVal [] c = none := rfl

theorem colVal_cons (c₀ : String) (v₀ : PyVal) (r : Row) (c : String) :
    colVal ((c₀, v₀) :: r) c = if c₀ = c then some v₀ else colVal r c := by
  by_cases h : c₀ = c <;> simp [colVal, List.find?_cons, h]

theorem setCol_cons (c₀ : String) (v₀ : PyVal) (r : Row) (c : String) (v : PyVal) :
    setCol ((c₀, v₀) :: r) c v =
      if c₀ = c then (c, v) :: r else (c₀, v₀) :: setCol r c v := by
  by_cases h : c₀ = c <;> simp [setCol, h]

theorem colVal_setCol_self (r : Row) (c : String) (v : PyVal) :
    colVal (setCol r c v) c = some v := by
  induction r with
  | nil => simp [setCol, colVal_cons]
  | cons hd tl ih =>
      obtain ⟨c', v'⟩ := hd
      by_cases h : c' = c
      · simp [setCol_cons, h, colVal_cons]
      · simp [setCol_cons, h, colVal_cons, ih]

theorem colVal_setCol_ne (r : Row) (c c' : String) (v : PyVal) (h : c' ≠ c) :
    colVal (setCol r c v) c' = colVal r c' := by
  have hcc : c ≠ c' := fun hh => h hh.symm
  induction r with
  | nil =>
      show colVal [(c, v)] c' = none
      rw [colVal_cons, if_neg hcc, colVal_nil]
  | cons hd tl ih =>
      obtain ⟨c₀, v₀⟩ := hd
      rw [setCol_cons]
      by_cases h0 : c₀ = c
      · subst h0
        rw [if_pos rfl, colVal_cons, if_neg hcc, colVal_cons, if_neg hcc]
      · rw [if_neg h0, colVal_cons, colVal_cons, ih]

theorem setCol_eq_append (r : Row) (c : String) (v : PyVal)
    (h : colVal r c = none) : setCol r c v = r ++ [(c, v)] := by
  induction r with
  | nil => simp [setCol]
  | cons hd tl ih =>
      obtain ⟨c₀, v₀⟩ := hd
      by_cases h0 : c₀ = c
      · rw [colVal_cons, if_pos h0] at h
        exact absurd h (by simp)
      · rw [colVal_cons, if_neg h0] at h
        simp [setCol_cons, h0, ih h]

theorem filterMap_ext_mem {α β : Type} (l : List α) (f g : α → Option β)
    (h : ∀ a ∈ l, f a = g a) : l.filterMap f = l.filterMap g := by
  induction l with
  | nil => rfl
  | cons hd tl ih =>
      rw [List.filterMap_cons, List.filterMap_cons, h hd (by simp),
        ih (fun a ha => h a (by simp [ha]))]

theorem bind_ok_ex {α β : Type} (a : α) (f : α → Except String β) :
    Bind.bind (Except.ok a) f = f a := rfl

theorem pyAdd_str (a c : String) :
    pyAdd (.vStr a) (.vStr c) = .ok (.vStr (a ++ c)) := rfl

theorem pyAdd_null_left (v w : PyVal) (h : isNull v = true) :
    pyAdd v w = .ok .vNaN := by
  simp [pyAdd, h]

theorem makeProductId_ok_of_firstKeyError_none (df : List Row)
    (h : firstKeyError df = none) : ∀ r ∈ df, ∃ v, makeProductId r = .ok v := by
  intro r hr
  have h2 := List.findSome?_eq_none_iff.mp h r hr
  cases hmk : makeProductId r with
  | ok v => exact ⟨v, rfl⟩
  | error e => rw [hmk] at h2; exact absurd h2 (by simp)

theorem filterProducts_eq (df out : List Row) (h : filterProducts df = .ok out) :
    firstKeyError df = none ∧
    out = (df.map tagRowOf).filter (keptPred (crossKeys df)) := by
  unfold filterProducts at h
  cases hf : firstKeyError df with
  | some e => rw [hf] at h; exact absurd h (by simp)
  | none =>
      rw [hf] at h
      by_cases hp : df.all (fun r => (colVal r "platform").isSome)
      · rw [if_pos hp] at h
        injection h with h'
        exact ⟨rfl, h'.symm⟩
      · rw [if_neg hp] at h; exact absurd h (by simp)

theorem colVal_tagRowOf_pid (r : Row) (v : PyVal) (h : makeProductId r = .ok v) :
    colVal (tagRowOf r) "product_id" = some v := by
  unfold tagRowOf
  rw [h]
  exact colVal_setCol_self r "product_id" v

theorem colVal_tagRowOf_ne (r : Row) (c : String) (h : c ≠ "product_id") :
    colVal (tagRowOf r) c = colVal r c := by
  unfold tagRowOf
  cases hmk : makeProductId r with
  | ok v => exact colVal_setCol_ne r "product_id" c v h
  | error e => rfl

theorem platformVals_tag (df : List Row) (s : String)
    (hok : ∀ r ∈ df, ∃ v, makeProductId r = .ok v) :
    platformVals (df.map tagRowOf) s = platformsOfKey df (.vStr s) := by
  unfold platformVals platformsOfKey
  rw [List.filter_map, List.filterMap_map]
  have hfilter :
      df.filter ((fun t => decide (colVal t "product_id" = some (.vStr s))) ∘ tagRowOf) =
      df.filter (fun r => decide (makeProductId r = .ok (.vStr s))) := by
    apply List.filter_congr
    intro r hr
    obtain ⟨v, hv⟩ := hok r hr
    simp only [Function.comp_apply, colVal_tagRowOf_pid r v hv, hv]
    apply decide_eq_decide.mpr
    constructor
    · intro hh; injection hh with hh'; rw [hh']
    · intro hh; injection hh with hh'; rw [hh']
  rw [hfilter]
  congr 1
  apply filterMap_ext_mem
  intro r hr
  exact colVal_tagRowOf_ne r "platform" (by decide)

theorem mem_strKeysOf (df : List Row) (r : Row) (s : String) (hr : r ∈ df)
    (hk : makeProductId r = .ok (.vStr s)) : s ∈ strKeysOf df := by
  unfold strKeysOf
  rw [List.mem_dedup, List.mem_filterMap]
  exact ⟨r, hr, by rw [hk]⟩

theorem mem_crossKeys_iff (df : List Row) (s : String)
    (hok : ∀ r ∈ df, ∃ v, makeProductId r = .ok v)
    (hs : s ∈ strKeysOf df) :
    s ∈ crossKeys df ↔
      2 ≤ ((platformsOfKey df (.vStr s)).filter isKnownPlatform).length := by
  unfold crossKeys
  rw [List.mem_filter, platformVals_tag df s hok]
  constructor
  · rintro ⟨-, hcond⟩
    exact of_decide_eq_true hcond
  · intro hcond
    exact ⟨hs, decide_eq_true hcond⟩

theorem processFile_rows_nil (p : String) (f : CsvFile) :
    (processFile p f).2 = [] := by
  unfold processFile
  by_cases h : (missingCols f).isEmpty
  · simp [h, lookupFn, globalFns]
  · simp [h]

theorem processFiles_rows_nil (p : String) (fs : List CsvFile) :
    (processFiles p fs).2 = [] := by
  induction fs with
  | nil => rfl
  | cons f fs ih => simp [processFiles, processFile_rows_nil, ih]

theorem processPlatform_rows_nil (root : DataRoot) (p : String) :
    (processPlatform root p).2 = [] := by
  unfold processPlatform
  cases lookupDir root p with
  | none => rfl
  | some files => exact processFiles_rows_nil p files

theorem loadCleanedData_rows_nil (root : DataRoot) :
    (loadCleanedData root).2 = [] := by
  simp [loadCleanedData, platformList, processPlatform_rows_nil]

theorem processFiles_append (p : String) (xs ys : List CsvFile) :
    processFiles p (xs ++ ys) =
      ((processFiles p xs).1 ++ (processFiles p ys).1,
       (processFiles p xs).2 ++ (processFiles p ys).2) := by
  induction xs with
  | nil => simp [processFiles]
  | cons f fs ih => simp [processFiles, ih]

theorem filterMap_priceVal_eq_map (l : List Row)
    (h : ∀ r ∈ l, ∃ q : ℚ, colVal r "price" = some (.vNum q)) :
    l.filterMap priceVal = l.map priceOf := by
  induction l with
  | nil => rfl
  | cons hd tl ih =>
      obtain ⟨q, hq⟩ := h hd (by simp)
      rw [List.filterMap_cons, List.map_cons]
      rw [show priceVal hd = some q from by simp [priceVal, hq]]
      rw [show priceOf hd = q from by simp [priceOf, hq]]
      rw [ih (fun r hr => h r (by simp [hr]))]

/-! ## Claim C1 -/

/-- C1, counterexample: as stated, the membership condition fails for rows
whose identity key is null.  Two rows with a null brand — one per platform —
share the null key `NaN`; the distinct platforms observed for that key meet
both known platforms, yet groupby drops the null key and the matcher
returns the empty frame, excluding both rows. -/
theorem matcher_claimed_iff_false :
    ¬ (∀ df out : List Row, filterProducts df = .ok out →
        ∀ r ∈ df, ∀ k, makeProductId r = .ok k →
          (tagRowOf r ∈ out ↔
            2 ≤ ((platformsOfKey df k).filter isKnownPlatform).length)) := by
  intro h
  have h2 := h dfNullBrand [] rfl nullBrandEbay (by decide) .vNaN rfl
  have h3 : 2 ≤ ((platformsOfKey dfNullBrand .vNaN).filter isKnownPlatform).length := by
    decide
  exact List.not_mem_nil _ (h2.mpr h3)

/-- C1, amended: for every row whose identity key is a (non-null) string,
the Matcher includes the row's tagged form in its output iff the set of
distinct platforms observed for that key meets the known-platform set
in at least two values — so a key seen on a single platform, however many
duplicate rows it has there, never appears; a row whose key is the null
marker (null brand) is never included, even when both platforms carry the
same null pattern; and an empty input table yields an empty output. -/
theorem matcher_cross_platform_iff (df out : List Row)
    (h : filterProducts df = .ok out) :
    (∀ r ∈ df, ∀ s, makeProductId r = .ok (.vStr s) →
        (tagRowOf r ∈ out ↔
          2 ≤ ((platformsOfKey df (.vStr s)).filter isKnownPlatform).length)) ∧
    (∀ r ∈ df, makeProductId r = .ok .vNaN → tagRowOf r ∉ out) ∧
    filterProducts [] = .ok [] := by
  obtain ⟨hfe, hout⟩ := filterProducts_eq df out h
  have hok := makeProductId_ok_of_firstKeyError_none df hfe
  refine ⟨?_, ?_, rfl⟩
  · intro r hr s hk
    subst hout
    have hmem : tagRowOf r ∈ df.map tagRowOf := List.mem_map_of_mem _ hr
    have hpid : colVal (tagRowOf r) "product_id" = some (.vStr s) :=
      colVal_tagRowOf_pid r _ hk
    rw [List.mem_filter]
    constructor
    · rintro ⟨-, hkept⟩
      simp only [keptPred, hpid] at hkept
      have hcross : s ∈ crossKeys df := by
        rwa [List.elem_iff] at hkept
      exact (mem_crossKeys_iff df s hok (mem_strKeysOf df r s hr hk)).mp hcross
    · intro hcond
      refine ⟨hmem, ?_⟩
      simp only [keptPred, hpid]
      rw [List.elem_iff]
      exact (mem_crossKeys_iff df s hok (mem_strKeysOf df r s hr hk)).mpr hcond
  · intro r hr hk
    subst hout
    intro hmem
    have hkept := (List.mem_filter.mp hmem).2
    simp [keptPred, colVal_tagRowOf_pid r _ hk] at hkept

/-- C1, witness: in the Dell example the cross-platform 24-inch listing is
included (its key is seen on both platforms) and the 27-inch eBay-only
listing is excluded. -/
theorem matcher_cross_platform_iff_witness :
    filterProducts dfDell = .ok [tagRowOf dellEbay, tagRowOf dellFlipkart] ∧
    dellEbay ∈ dfDell ∧
    makeProductId dellEbay = .ok (.vStr "Dell|24|16:9|144|1") ∧
    tagRowOf dellEbay ∈ [tagRowOf dellEbay, tagRowOf dellFlipkart] ∧
    makeProductId dellBig = .ok (.vStr "Dell|27|16:9|144|1") ∧
    tagRowOf dellBig ∉ [tagRowOf dellEbay, tagRowOf dellFlipkart] := by
  refine ⟨rfl, by decide, rfl, ?_, rfl, ?_⟩
  · exact ((matcher_cross_platform_iff dfDell
        [tagRowOf dellEbay, tagRowOf dellFlipkart] rfl).1 dellEbay (by decide)
        "Dell|24|16:9|144|1" rfl).mpr (by decide)
  · intro hmem
    have := ((matcher_cross_platform_iff dfDell
        [tagRowOf dellEbay, tagRowOf dellFlipkart] rfl).1 dellBig (by decide)
        "Dell|27|16:9|144|1" rfl).mp hmem
    exact absurd this (by decide)

/-! ## Claim C6 -/

/-- C6, counterexample: a row whose brand cell is null still has all five
key columns, yet its product id is the null marker, not a string: pandas
masks the null left operand of the first concatenation, so the whole
column expression collapses to null — the key is not the ordered
pipe-separated concatenation the claim promises. -/
theorem null_brand_key_not_string :
    makeProductId nullBrandEbay = .ok .vNaN ∧
    makeProductId nullBrandEbay ≠ .ok (.vStr "nan|24|16:9|144|1") ∧
    isNull .vNaN = true := by
  have h : makeProductId nullBrandEbay = .ok .vNaN := rfl
  refine ⟨h, fun hs => ?_, rfl⟩
  rw [h] at hs
  simp at hs

/-- C6, amended: a row whose brand is a (non-null) string always receives
the string key brand | size | ratio | refresh | response, where a null in
any of the four cast columns renders as the text "nan" or "None" and never
prevents key construction; a row whose brand is null instead receives the
null key (which the grouping then drops). -/
theorem product_key_construction (r : Row) (bv sz ar rr rt : PyVal)
    (hb : colVal r "brand" = some bv)
    (hs : colVal r "screen_size_in" = some sz)
    (ha : colVal r "aspect_ratio" = some ar)
    (hr : colVal r "refresh_rate_hz" = some rr)
    (ht : colVal r "response_time_ms" = some rt) :
    (∀ b, bv = .vStr b →
        makeProductId r =
          .ok (.vStr (b ++ "|" ++ pyToStr sz ++ "|" ++ pyToStr ar ++ "|" ++
            pyToStr rr ++ "|" ++ pyToStr rt))) ∧
    (isNull bv = true → makeProductId r = .ok .vNaN) := by
  have hgb : getColE r "brand" = .ok bv := by simp [getColE, hb]
  have hgs : getColE r "screen_size_in" = .ok sz := by simp [getColE, hs]
  have hga : getColE r "aspect_ratio" = .ok ar := by simp [getColE, ha]
  have hgr : getColE r "refresh_rate_hz" = .ok rr := by simp [getColE, hr]
  have hgt : getColE r "response_time_ms" = .ok rt := by simp [getColE, ht]
  constructor
  · rintro b rfl
    simp only [makeProductId, hgb, hgs, hga, hgr, hgt, bind_ok_ex, astypeStr,
      pyAdd_str]
  · intro hnull
    simp only [makeProductId, hgb, hgs, hga, hgr, hgt, bind_ok_ex, astypeStr,
      pyAdd_null_left bv _ hnull, pyAdd_null_left PyVal.vNaN _ rfl]

/-- C6, witness: a Dell row with a null response time still gets the
string key with a "nan" component. -/
theorem product_key_construction_witness :
    colVal nullRespEbay "brand" = some (.vStr "Dell") ∧
    makeProductId nullRespEbay = .ok (.vStr "Dell|24|16:9|144|nan") := by
  refine ⟨by decide, ?_⟩
  have h := (product_key_construction nullRespEbay (.vStr "Dell") (.vNum 24)
      (.vStr "16:9") (.vNum 144) .vNaN (by decide) (by decide) (by decide)
      (by decide) (by decide)).1 "Dell" rfl
  rw [h]
  decide

/-! ## Claim C7 -/

/-- C7, counterexample: the matched output is not content-identical to the
input rows — each returned row carries a product_id column the input rows
did not have. -/
theorem matcher_output_not_input_rows :
    filterProducts dfDell = .ok [tagRowOf dellEbay, tagRowOf dellFlipkart] ∧
    colVal dellEbay "product_id" = none ∧
    colVal (tagRowOf dellEbay) "product_id" = some (.vStr "Dell|24|16:9|144|1") ∧
    tagRowOf dellEbay ≠ dellEbay := by
  exact ⟨rfl, rfl, by decide, by decide⟩

/-- C7, amended: the Matcher's output is the kept subset of the input rows
in their original relative order, each row unchanged in every original
column but extended with one new product_id column holding its key (the
same column the Matcher also adds to its input frame in place). -/
theorem matcher_frame_effect (df out : List Row)
    (h : filterProducts df = .ok out) :
    (∃ kept : List Row, kept.Sublist df ∧ out = kept.map tagRowOf) ∧
    (∀ r ∈ df, colVal r "product_id" = none →
        ∃ v, makeProductId r = .ok v ∧ tagRowOf r = r ++ [("product_id", v)]) := by
  obtain ⟨hfe, hout⟩ := filterProducts_eq df out h
  have hok := makeProductId_ok_of_firstKeyError_none df hfe
  constructor
  · refine ⟨df.filter (fun r => keptPred (crossKeys df) (tagRowOf r)),
      List.filter_sublist _, ?_⟩
    rw [hout, List.filter_map]
    rfl
  · intro r hr hnone
    obtain ⟨v, hv⟩ := hok r hr
    refine ⟨v, hv, ?_⟩
    unfold tagRowOf
    rw [hv]
    exact setCol_eq_append r "product_id" v hnone

/-- C7, witness: on the Dell table the output is the tagged image of an
order-preserving sublist of the input, and the eBay row's tagged form is
the row with the product_id column appended. -/
theorem matcher_frame_effect_witness :
    filterProducts dfDell = .ok [tagRowOf dellEbay, tagRowOf dellFlipkart] ∧
    (∃ kept : List Row, kept.Sublist dfDell ∧
        [tagRowOf dellEbay, tagRowOf dellFlipkart] = kept.map tagRowOf) ∧
    colVal dellEbay "product_id" = none ∧
    (∃ v, makeProductId dellEbay = .ok v ∧
        tagRowOf dellEbay = dellEbay ++ [("product_id", v)]) :=
  ⟨rfl,
   (matcher_frame_effect dfDell [tagRowOf dellEbay, tagRowOf dellFlipkart] rfl).1,
   rfl,
   (matcher_frame_effect dfDell [tagRowOf dellEbay, tagRowOf dellFlipkart] rfl).2
     dellEbay (by decide) rfl⟩

/-! ## Claim C3 -/

/-- C3, counterexample: the claim's stated rule — strip (remove) every
character that is neither a word character nor whitespace — maps the
example key to Monitor_Dell_24_169_144_1.png (the colon between 16 and 9
vanishes), while the code and the claim's own expected example replace
such characters with an underscore, giving Monitor_Dell_24_16_9_144_1.png.
The stated rule therefore contradicts the code at this key. -/
theorem strip_rule_contradicts_code :
    chartFileNameStripRule "Dell|24|16:9|144|1" = "Monitor_Dell_24_169_144_1.png" ∧
    chartFileName "Dell|24|16:9|144|1" = "Monitor_Dell_24_16_9_144_1.png" ∧
    chartFileNameStripRule "Dell|24|16:9|144|1" ≠
      chartFileName "Dell|24|16:9|144|1" := by
  refine ⟨by decide, by decide, by decide⟩

/-- C3, amended: the chart filename replaces the key's separator with
underscores and then replaces (not removes) every character that is
neither a word character nor whitespace by an underscore, wrapped in the
Monitor_ prefix and .png suffix; every character of the sanitized part is
a word character or whitespace, and the example key maps to
Monitor_Dell_24_16_9_144_1.png. -/
theorem chart_filename_spec (pid : String) :
    (∀ c ∈ (sanitizeTitle pid).toList, isWordChar c = true ∨ isSpaceChar c = true) ∧
    chartFileName "Dell|24|16:9|144|1" = "Monitor_Dell_24_16_9_144_1.png" := by
  constructor
  · intro c hc
    have hc' : c ∈ (pid.toList.map (fun c => if c = '|' then '_' else c)).map
        (fun c => if isWordChar c || isSpaceChar c then c else '_') := hc
    obtain ⟨c₀, -, h0⟩ := List.mem_map.mp hc'
    by_cases h1 : (isWordChar c₀ || isSpaceChar c₀) = true
    · rw [if_pos h1] at h0
      subst h0
      rcases Bool.or_eq_true_iff.mp h1 with h | h
      · exact Or.inl h
      · exact Or.inr h
    · rw [if_neg h1] at h0
      subst h0
      exact Or.inl (by decide)
  · decide

/-- C3, witness: the sanitized example contains the word character D, and
the theorem classifies it. -/
theorem chart_filename_spec_witness :
    'D' ∈ (sanitizeTitle "Dell|24|16:9|144|1").toList ∧
    (isWordChar 'D' = true ∨ isSpaceChar 'D' = true) :=
  ⟨by decide, (chart_filename_spec "Dell|24|16:9|144|1").1 'D' (by decide)⟩

/-! ## Claim C4 -/

/-- C4, counterexample: when the try body raises an Exception, the handler
only logs it; execution then falls off the end of the script and the
process exits with status 0, not the claimed non-zero status. -/
theorem toplevel_exception_exit_zero :
    (mainHandler (.raised "RuntimeError: boom", [], [])).exitStatus = 0 ∧
    ¬ 0 < (mainHandler (.raised "RuntimeError: boom", [], [])).exitStatus := by
  exact ⟨rfl, by decide⟩

/-- C4, amended: any Exception raised inside the try body is caught by the
top-level handler and logged as a critical error with full diagnostic
context, and the run then terminates normally with exit status 0 (never an
unhandled crash, but also never a non-zero status); only the empty-data
exit path — a SystemExit the handler does not catch — carries its code to
the process status. -/
theorem toplevel_handler_spec (ls : List LogEntry) (cs : List String) :
    (∀ m, mainHandler (.raised m, ls, cs) =
        ⟨ls ++ [.error ("Critical error: " ++ m)], cs, 0⟩) ∧
    (∀ c, mainHandler (.sysExit c, ls, cs) = ⟨ls, cs, c⟩) ∧
    mainHandler (.completed, ls, cs) = ⟨ls, cs, 0⟩ :=
  ⟨fun _ => rfl, fun _ => rfl, rfl⟩

/-! ## Claim C5 -/

/-- C5, counterexample: the screen-size conversion is not total — a
non-numeric non-null cell such as "N/A" reaches float(), which raises
ValueError instead of producing a null marker. -/
theorem screen_size_conversion_raises :
    convertScreenSize (.vStr "N/A") =
      .error "ValueError: could not convert string to float: N/A" ∧
    convertScreenSize (.vStr "N/A") ≠ .ok .vNone := by
  have h : convertScreenSize (.vStr "N/A") =
      .error "ValueError: could not convert string to float: N/A" := rfl
  refine ⟨h, fun hv => ?_⟩
  rw [h] at hv
  simp at hv

/-- C5, amended: a missing (null) screen-size value becomes the null
marker without raising, and a numeric value — or numeric text — is
converted with Python round (nearest integer, ties to even); but the
conversion is not total: a non-numeric value raises ValueError, and the
per-file handler then skips the containing file. -/
theorem screen_size_conversion_spec :
    (∀ x, isNull x = true → convertScreenSize x = .ok .vNone) ∧
    (∀ q : ℚ, convertScreenSize (.vNum q) = .ok (.vNum (pythonRound q))) ∧
    convertScreenSize (.vStr "24.5") = .ok (.vNum 24) ∧
    (∀ v, convertScreenSize (.vStr "N/A") ≠ .ok v) := by
  refine ⟨?_, fun q => rfl, by decide, fun v hv => ?_⟩
  · intro x hx
    simp [convertScreenSize, pdNotNull, hx]
  · rw [show convertScreenSize (.vStr "N/A") =
        .error "ValueError: could not convert string to float: N/A" from rfl] at hv
    simp at hv

/-- C5, witness: a NaN cell is null and converts to None without raising. -/
theorem screen_size_conversion_spec_witness :
    isNull PyVal.vNaN = true ∧ convertScreenSize PyVal.vNaN = .ok .vNone :=
  ⟨rfl, screen_size_conversion_spec.1 PyVal.vNaN rfl⟩

/-! ## Claim C2 -/

/-- C2: the loader always returns the empty table for every input tree —
a file that passes the required-column check next evaluates the names
normalize_brand and normalize_aspect_ratio, which the notebook never
defines, so the per-file handler catches the NameError and skips the file;
no file is ever appended, the main block always takes the empty-table
branch and exits with status 1, and no chart file is produced. -/
theorem load_always_empty (root : DataRoot) :
    (loadCleanedData root).2 = [] ∧
    (∀ p f, (missingCols f).isEmpty = true →
        processFile p f =
          ([.error ("Error loading " ++ f.name ++
              ": NameError: name normalize_brand is not defined")], [])) ∧
    (mainRun root).exitStatus = 1 ∧
    (mainRun root).charts = [] := by
  refine ⟨loadCleanedData_rows_nil root, ?_, ?_, ?_⟩
  · intro p f hmiss
    unfold processFile
    simp [hmiss, lookupFn, globalFns]
  · unfold mainRun bodyRun
    rw [loadCleanedData_rows_nil root]
    simp [mainHandler]
  · unfold mainRun bodyRun
    rw [loadCleanedData_rows_nil root]
    simp [mainHandler]

/-- C2, witness: a directory tree with a well-formed file still loads
nothing — the file is skipped with the NameError — and the run exits 1
with no charts. -/
theorem load_always_empty_witness :
    (missingCols fileOK).isEmpty = true ∧
    processFile "ebay" fileOK =
      ([.error ("Error loading " ++ fileOK.name ++
          ": NameError: name normalize_brand is not defined")], []) ∧
    (loadCleanedData rootBoth).2 = [] ∧
    (mainRun rootBoth).exitStatus = 1 ∧
    (mainRun rootBoth).charts = [] :=
  ⟨rfl, (load_always_empty rootBoth).2.1 "ebay" fileOK rfl,
   (load_always_empty rootBoth).1, (load_always_empty rootBoth).2.2.1,
   (load_always_empty rootBoth).2.2.2⟩

/-! ## Claim C9 -/

/-- C9: a file whose normalized header misses a required column is skipped
whole with a warning — it contributes no row (not even a partial one) and
no error entry — and the file loop continues with the files before and
after it unchanged. -/
theorem missing_columns_skipped (p : String) (f : CsvFile)
    (h : (missingCols f).isEmpty = false) :
    processFile p f =
      ([.warning ("Missing columns in " ++ f.name ++ ": " ++
          String.intercalate ", " (missingCols f))], []) ∧
    (∀ pre post : List CsvFile,
        processFiles p (pre ++ f :: post) =
          ((processFiles p pre).1 ++
            (.warning ("Missing columns in " ++ f.name ++ ": " ++
              String.intercalate ", " (missingCols f)) :: (processFiles p post).1),
           (processFiles p pre).2 ++ (processFiles p post).2)) := by
  have h1 : processFile p f =
      ([.warning ("Missing columns in " ++ f.name ++ ": " ++
          String.intercalate ", " (missingCols f))], []) := by
    unfold processFile
    simp [h]
  refine ⟨h1, fun pre post => ?_⟩
  rw [processFiles_append]
  simp [processFiles, h1]

/-- C9, witness: the file lacking price and brand is skipped with a
warning while the neighbouring file's processing is untouched. -/
theorem missing_columns_skipped_witness :
    (missingCols fileMissing).isEmpty = false ∧
    processFile "ebay" fileMissing =
      ([.warning ("Missing columns in " ++ fileMissing.name ++ ": " ++
          String.intercalate ", " (missingCols fileMissing))], []) ∧
    processFiles "ebay" ([fileOK] ++ fileMissing :: []) =
      ((processFiles "ebay" [fileOK]).1 ++
        (.warning ("Missing columns in " ++ fileMissing.name ++ ": " ++
          String.intercalate ", " (missingCols fileMissing)) ::
            (processFiles "ebay" ([] : List CsvFile)).1),
       (processFiles "ebay" [fileOK]).2 ++
         (processFiles "ebay" ([] : List CsvFile)).2) :=
  ⟨rfl, (missing_columns_skipped "ebay" fileMissing rfl).1,
   (missing_columns_skipped "ebay" fileMissing rfl).2 [fileOK] []⟩

/-! ## Claim C10 -/

/-- C10: whenever the loader returns an empty unified table, the main
block logs the no-data error and terminates through exit(1) — a
SystemExit the Exception handler does not catch, so the process ends with
status 1, without an unhandled exception and with zero chart files. -/
theorem empty_load_terminates (root : DataRoot)
    (h : (loadCleanedData root).2 = []) :
    (mainRun root).exitStatus = 1 ∧
    LogEntry.error "No cleaned data found. Check data/cleaned directories." ∈
      (mainRun root).logs ∧
    (mainRun root).charts = [] := by
  unfold mainRun bodyRun
  rw [h]
  simp [mainHandler]

/-- C10, witness: with no platform directories the loader yields the empty
table and the run exits 1 with the error logged and no charts. -/
theorem empty_load_terminates_witness :
    (loadCleanedData rootEmpty).2 = [] ∧
    (mainRun rootEmpty).exitStatus = 1 ∧
    LogEntry.error "No cleaned data found. Check data/cleaned directories." ∈
      (mainRun rootEmpty).logs ∧
    (mainRun rootEmpty).charts = [] :=
  ⟨rfl, (empty_load_terminates rootEmpty rfl).1,
   (empty_load_terminates rootEmpty rfl).2.1,
   (empty_load_terminates rootEmpty rfl).2.2⟩

/-! ## Claim C8 -/

/-- C8: the daily aggregate at a (key, platform, date) triple is the
arithmetic mean of price over all rows sharing that triple (when those
prices are numeric), and rows with a null collection date are excluded
from every aggregation group. -/
theorem daily_mean_spec (df : List Row) (k : PyVal × PyVal × PyVal)
    (hne : groupRows df k ≠ [])
    (hnum : ∀ r ∈ groupRows df k, ∃ q : ℚ, colVal r "price" = some (.vNum q)) :
    dailyMean df k =
      some (((groupRows df k).map priceOf).sum / ((groupRows df k).length : ℚ)) ∧
    (∀ r ∈ df, colVal r "collection_date" = some .vNaN → r ∉ groupRows df k) := by
  constructor
  · unfold dailyMean
    rw [filterMap_priceVal_eq_map _ hnum]
    have hne2 : ((groupRows df k).map priceOf).isEmpty = false := by
      cases hgr : groupRows df k with
      | nil => exact absurd hgr hne
      | cons a l => simp
    simp [hne2, List.length_map]
  · intro r _ hdate hmem
    have h2 := (List.mem_filter.mp hmem).2
    have htrip : tripleKey r = none := by
      unfold tripleKey
      rw [hdate]
      cases colVal r "product_id" <;> cases colVal r "platform" <;> simp [isNull]
    rw [htrip] at h2
    simp at h2

/-- C8, witness: two eBay rows with the example key, the same date and
prices 200 and 220 aggregate to 210 for (key, ebay, date). -/
theorem daily_mean_spec_witness :
    groupRows dfAgg aggTriple ≠ [] ∧
    dailyMean dfAgg aggTriple = some 210 := by
  have hgr : groupRows dfAgg aggTriple =
      [tagRowOf dellEbay, tagRowOf (setCol dellEbay "price" (.vNum 220))] := by
    decide
  have hnum : ∀ r ∈ groupRows dfAgg aggTriple,
      ∃ q : ℚ, colVal r "price" = some (.vNum q) := by
    intro r hr
    rw [hgr] at hr
    rcases List.mem_cons.mp hr with rfl | hr2
    · exact ⟨200, by decide⟩
    · rcases List.mem_cons.mp hr2 with rfl | h3
      · exact ⟨220, by decide⟩
      · exact absurd h3 (List.not_mem_nil _)
  have hne : groupRows dfAgg aggTriple ≠ [] := by
    rw [hgr]
    simp
  refine ⟨hne, ?_⟩
  rw [(daily_mean_spec dfAgg aggTriple hne hnum).1, hgr]
  rw [show ([tagRowOf dellEbay,
      tagRowOf (setCol dellEbay "price" (.vNum 220))].map priceOf) =
      [(200 : ℚ), 220] from by decide]
  norm_num [List.sum_cons, List.sum_nil]

end PriceMonitors
